import Mathlib

/-
Formal model of the NexGenFireWalls Step1 packet pipeline:
capture.c (dispatcher callback and main), preprocess.c (flow aggregator),
denylist.c, rate_limit.c, malformed.c and malformed_log.c.

Modelling conventions:
* A captured packet is the list of its captured bytes; `caplen` is the
  list length.  The C code occasionally dereferences the packet buffer
  past `caplen`; `byteAt` models such reads by consulting `junk`, an
  arbitrary function standing for whatever memory lies beyond the
  captured bytes.  Parsers that bound-check every access never depend
  on `junk`.
* IPv4 addresses are modelled as the natural number obtained from the
  four address bytes in network (big-endian) order.  denylist.c and
  preprocess.c compare addresses through their `inet_ntop` dotted-quad
  strings; `inet_ntop` is injective on 4-byte addresses, so string
  equality coincides with equality of these numbers.
* Wall-clock times (gettimeofday) and packet timestamps are rationals;
  the C `double` token arithmetic of rate_limit.c is modelled exactly
  over ℚ.  Counters are `Nat`; in the C source they are 32/64-bit
  integers and every property below stays far below the wrap point.
* The hash table of rate_limit.c and the fixed arrays of preprocess.c /
  denylist.c are modelled as lists: a chained hash table is
  observationally an association list (new entries are pushed on the
  front of their chain, lookups scan the chain in order).
-/

/-! ## Byte-level packet access -/

/-- Read byte `i` of a captured packet.  Reads inside the captured bytes
return the captured data; reads past `caplen` (out-of-bounds in the C
program) return whatever the surrounding memory `junk` holds. -/
def byteAt (pkt : List Nat) (junk : Nat → Nat) (i : Nat) : Nat :=
  if h : i < pkt.length then pkt.get ⟨i, h⟩ else junk i

/-- Big-endian 16-bit field at offset `i` (the `ntohs` of the C field). -/
def word16 (pkt : List Nat) (junk : Nat → Nat) (i : Nat) : Nat :=
  byteAt pkt junk i * 256 + byteAt pkt junk (i + 1)

/-- IPv4 address (4 bytes, network order) at offset `i`, as a number. -/
def ip32 (pkt : List Nat) (junk : Nat → Nat) (i : Nat) : Nat :=
  ((byteAt pkt junk i * 256 + byteAt pkt junk (i + 1)) * 256 +
    byteAt pkt junk (i + 2)) * 256 + byteAt pkt junk (i + 3)

/-! ## denylist.c -/

/-- Result of `check_denylist`: the C function returns `false` (drop)
printing reason "deny_ip" or "deny_port", or `true` (allow). -/
inductive DenyVerdict
  | allow
  | denyIp
  | denyPort
deriving DecidableEq

/-- Destination-port extraction of `check_denylist` (denylist.c lines
155-170): the port stays 0 unless the packet is TCP/UDP with a fully
captured transport header. -/
def denyDstPort (pkt : List Nat) (junk : Nat → Nat) : Nat :=
  let ihl := byteAt pkt junk 14 % 16 * 4
  let proto := byteAt pkt junk 23
  let l4off := 14 + ihl
  let l4len := if l4off < pkt.length then pkt.length - l4off else 0
  if proto = 6 ∧ 20 ≤ l4len then word16 pkt junk (l4off + 2)
  else if proto = 17 ∧ 8 ≤ l4len then word16 pkt junk (l4off + 2)
  else 0

/-- `check_denylist` (denylist.c).  Note: after the Ethernet-header
length check the C code reads the IP header fields unconditionally,
so for a captured length in [14, 34) those reads go through `junk`. -/
def check_denylist (denyIps denyPorts : List Nat) (pkt : List Nat)
    (junk : Nat → Nat) : DenyVerdict :=
  if pkt.length < 14 then .allow
  else if word16 pkt junk 12 ≠ 0x0800 then .allow
  else if ip32 pkt junk 26 ∈ denyIps ∨ ip32 pkt junk 30 ∈ denyIps then .denyIp
  else if denyDstPort pkt junk ≠ 0 ∧ denyDstPort pkt junk ∈ denyPorts then .denyPort
  else .allow

/-- `load_deny_ports` (denylist.c): each nonblank line of Ports.txt is
run through `atoi`; the value is kept only if it lies in 1..65535, and
at most `MAX_DENY_PORTS = 1024` entries are stored.  The input is
modelled as the list of `atoi` results of the nonblank lines. -/
def load_deny_ports (vals : List Int) : List Nat :=
  ((vals.filter fun v => decide (0 < v) && decide (v ≤ 65535)).map Int.toNat).take 1024

/-! ## preprocess.c : the flow aggregator -/

/-- A row of the `interactions` array of preprocess.c.  Addresses are
modelled numerically (see the header comment); timestamps are the
packet capture timestamps as rationals. -/
structure Interaction where
  src_ip : Nat
  dst_ip : Nat
  src_port : Nat
  dst_port : Nat
  proto : Nat
  bytes_sent : Nat
  bytes_received : Nat
  pkts_sent : Nat
  pkts_received : Nat
  syn_count : Nat
  ack_count : Nat
  fin_count : Nat
  rst_count : Nat
  psh_count : Nat
  min_pkt_size : Nat
  max_pkt_size : Nat
  total_pkt_size : Nat
  first_ts : ℚ
  last_ts : ℚ
deriving DecidableEq

/-- State owned by preprocess.c: the global packet counter
`captured_count` and the `interactions` array (in creation order). -/
structure AggState where
  captured : Nat
  interactions : List Interaction
deriving DecidableEq

/-- A captured packet as delivered to the pcap callback: capture
timestamp `h->ts`, the captured bytes (`h->caplen` bytes), and the
on-wire length `h->len`. -/
structure Packet where
  ts : ℚ
  bytes : List Nat
  wirelen : Nat

/-- `interaction_match` (preprocess.c lines 64-72). -/
def interaction_match (ia : Interaction) (s d sp dp p : Nat) : Bool :=
  ia.src_ip = s ∧ ia.dst_ip = d ∧ ia.src_port = sp ∧ ia.dst_port = dp ∧ ia.proto = p

/-- Fresh record created by `get_or_create_interaction`
(preprocess.c lines 74-108): counters zero, `min_pkt_size` at its
`0xFFFFFFFF` sentinel, both timestamps at the packet's timestamp. -/
def newInteraction (s d sp dp p : Nat) (ts : ℚ) : Interaction :=
  { src_ip := s, dst_ip := d, src_port := sp, dst_port := dp, proto := p
    bytes_sent := 0, bytes_received := 0, pkts_sent := 0, pkts_received := 0
    syn_count := 0, ack_count := 0, fin_count := 0, rst_count := 0, psh_count := 0
    min_pkt_size := 0xFFFFFFFF, max_pkt_size := 0, total_pkt_size := 0
    first_ts := ts, last_ts := ts }

/-- `update_interaction_with_packet` (preprocess.c lines 110-137).
`flags` is `some f` exactly when the C caller passes a non-NULL
`tcphdr` pointer, `f` being the TCP flag byte. -/
def update_interaction_with_packet (ia : Interaction) (dirSent : Bool)
    (len : Nat) (ts : ℚ) (flags : Option Nat) : Interaction :=
  let ia :=
    if dirSent then
      { ia with bytes_sent := ia.bytes_sent + len, pkts_sent := ia.pkts_sent + 1 }
    else
      { ia with bytes_received := ia.bytes_received + len,
                pkts_received := ia.pkts_received + 1 }
  let ia :=
    { ia with
      min_pkt_size := if len < ia.min_pkt_size then len else ia.min_pkt_size
      max_pkt_size := if len > ia.max_pkt_size then len else ia.max_pkt_size
      total_pkt_size := ia.total_pkt_size + len }
  let ia :=
    match flags with
    | none => ia
    | some f =>
      { ia with
        syn_count := ia.syn_count + (if f &&& 0x02 ≠ 0 then 1 else 0)
        ack_count := ia.ack_count + (if f &&& 0x10 ≠ 0 then 1 else 0)
        fin_count := ia.fin_count + (if f &&& 0x01 ≠ 0 then 1 else 0)
        rst_count := ia.rst_count + (if f &&& 0x04 ≠ 0 then 1 else 0)
        psh_count := ia.psh_count + (if f &&& 0x08 ≠ 0 then 1 else 0) }
  { ia with
    first_ts := if ts < ia.first_ts then ts else ia.first_ts
    last_ts := if ts > ia.last_ts then ts else ia.last_ts }

/-- Replace the first list element satisfying `p` by its image under
`f`; `none` when no element matches.  Models an in-place update of the
matching array slot found by a front-to-back scan. -/
def updateFirstMatch (p : Interaction → Bool) (f : Interaction → Interaction) :
    List Interaction → Option (List Interaction)
  | [] => none
  | x :: xs =>
    if p x then some (f x :: xs)
    else (updateFirstMatch p f xs).map (x :: ·)

/-- `MAX_INTERACTIONS` (preprocess.c line 60). -/
def MAX_INTERACTIONS : Nat := 1024

/-- `process_packet` (preprocess.c lines 155-216): increments the
global `captured_count`, parses defensively, matches the exact
5-tuple key first, then the reversed key, and otherwise creates a
record (when the table is not full) whose observed direction counts
as "sent". -/
def process_packet (st : AggState) (pkt : Packet) (junk : Nat → Nat) : AggState :=
  let st := { st with captured := st.captured + 1 }
  let b := pkt.bytes
  if b.length < 14 then st
  else if word16 b junk 12 ≠ 0x0800 then st
  else
    let ihl := byteAt b junk 14 % 16 * 4
    if ihl < 20 then st
    else if b.length < 14 + ihl then st
    else
      let s := ip32 b junk 26
      let d := ip32 b junk 30
      let proto := byteAt b junk 23
      let l4off := 14 + ihl
      let l4len := b.length - l4off
      let parsed : Nat × Nat × Option Nat :=
        if proto = 6 ∧ 20 ≤ l4len then
          (word16 b junk l4off, word16 b junk (l4off + 2), some (byteAt b junk (l4off + 13)))
        else if proto = 17 ∧ 8 ≤ l4len then
          (word16 b junk l4off, word16 b junk (l4off + 2), none)
        else (0, 0, none)
      let sp := parsed.1
      let dp := parsed.2.1
      let flags := parsed.2.2
      match updateFirstMatch (interaction_match · s d sp dp proto)
          (update_interaction_with_packet · true pkt.wirelen pkt.ts flags)
          st.interactions with
      | some l => { st with interactions := l }
      | none =>
        match updateFirstMatch (interaction_match · d s dp sp proto)
            (update_interaction_with_packet · false pkt.wirelen pkt.ts flags)
            st.interactions with
        | some l => { st with interactions := l }
        | none =>
          if st.interactions.length ≥ MAX_INTERACTIONS then st
          else
            { st with
              interactions := st.interactions ++
                [update_interaction_with_packet (newInteraction s d sp dp proto pkt.ts)
                  true pkt.wirelen pkt.ts flags] }

/-- Derived per-flow fields computed by `report_and_reset`
(preprocess.c lines 238-277), over exact rational arithmetic. -/
structure FlowRow where
  duration_sec : ℚ
  avg_pkt_size : ℚ
  pkt_rate : ℚ
  syn_ack_ratio : ℚ
  syn_fin_ratio : ℚ
  total_packets : Nat
  total_bytes : Nat
deriving DecidableEq

/-- One CSV row emitted by `report_and_reset` for an interaction. -/
def reportRow (ia : Interaction) : FlowRow :=
  let elapsed0 : ℚ := ia.last_ts - ia.first_ts
  let elapsed : ℚ := if elapsed0 < 1 / 1000000 then 1 / 1000000 else elapsed0
  let totalPkts := ia.pkts_sent + ia.pkts_received
  { duration_sec := elapsed
    avg_pkt_size := if totalPkts > 0 then (ia.total_pkt_size : ℚ) / totalPkts else 0
    pkt_rate := if elapsed > 0 then (totalPkts : ℚ) / elapsed else 0
    syn_ack_ratio :=
      if ia.ack_count > 0 then (ia.syn_count : ℚ) / ia.ack_count
      else if ia.syn_count > 0 then 999 else 0
    syn_fin_ratio :=
      if ia.fin_count > 0 then (ia.syn_count : ℚ) / ia.fin_count
      else if ia.syn_count > 0 then 999 else 0
    total_packets := totalPkts
    total_bytes := ia.bytes_sent + ia.bytes_received }

/-! ## malformed.c : the RFC-conformance validator -/

/-- Rejection reasons of `is_malformed`, in the order the checks run. -/
inductive MalformedReason
  | too_short
  | truncated_ip_hdr
  | invalid_ihl
  | truncated_total
  | bad_checksum
  | frag_anomaly
  | tcp_truncated
  | tcp_off_invalid
  | syn_fin
  | tcp_cksum_bad
  | udp_truncated
  | udp_len_invalid
deriving DecidableEq

/-- One step of the carry-folding loop `sum = (sum & 0xffff) + (sum >> 16)`. -/
def foldCarryStep (s : Nat) : Nat := s % 65536 + s / 65536

/-- Fuel-driven version of the `while (sum >> 16)` loop of
`checksum_calc`; the fuel `s` itself always suffices because each
iteration strictly decreases the value. -/
def foldCarryAux : Nat → Nat → Nat
  | 0, s => s
  | fuel + 1, s => if s < 65536 then s else foldCarryAux fuel (foldCarryStep s)

/-- Carry folding of `checksum_calc` (malformed.c line 75). -/
def foldCarry (s : Nat) : Nat := foldCarryAux s s

/-- Sum of the big-endian 16-bit words of a byte sequence; an odd
trailing byte contributes as the high-order byte of a final word
(malformed.c lines 67-74). -/
def sumWords : List Nat → Nat
  | [] => 0
  | [b] => b * 256
  | b0 :: b1 :: rest => (b0 * 256 + b1) + sumWords rest

/-- `checksum_calc` (malformed.c lines 64-77): RFC 1071 one's-complement
sum.  The folded sum is below 2^16, so `~sum & 0xffff = 65535 - sum`. -/
def checksum_calc (bytes : List Nat) : Nat :=
  65535 - foldCarry (sumWords bytes)

/-- `ip_checksum_ok` (malformed.c lines 80-91): checksum over the
`ihl` header bytes with the checksum field (header offsets 10-11)
zeroed, compared against the stored checksum.  The C fallback of
treating the header as valid when `malloc` fails is not modelled
(allocation always succeeds in the model). -/
def ip_checksum_ok (pkt : List Nat) (junk : Nat → Nat) (ihl : Nat) : Bool :=
  if ihl < 20 then false
  else
    let buf := (List.range ihl).map fun i =>
      if i = 10 ∨ i = 11 then 0 else byteAt pkt junk (14 + i)
    checksum_calc buf = word16 pkt junk 24

/-- `tcp_checksum_ok` (malformed.c lines 94-119): pseudo-header
(src, dst, zero, protocol, segment length) followed by the captured
TCP segment with its checksum field (segment offsets 16-17) zeroed.
`(uint16_t)l4_len` truncates, hence the `% 65536`. -/
def tcp_checksum_ok (pkt : List Nat) (junk : Nat → Nat) (l4off l4len : Nat) : Bool :=
  if l4len < 20 then true
  else
    let t := l4len % 65536
    let buf :=
      [byteAt pkt junk 26, byteAt pkt junk 27, byteAt pkt junk 28, byteAt pkt junk 29,
       byteAt pkt junk 30, byteAt pkt junk 31, byteAt pkt junk 32, byteAt pkt junk 33,
       0, byteAt pkt junk 23, t / 256, t % 256] ++
      (List.range t).map fun i =>
        if i = 16 ∨ i = 17 then 0 else byteAt pkt junk (l4off + i)
    checksum_calc buf = word16 pkt junk (l4off + 16)

/-- `fragmentation_anomaly` (malformed.c lines 122-133): any fragment
(nonzero fragment offset or MF flag) whose captured length does not
extend past the IP header. -/
def fragmentation_anomaly (pkt : List Nat) (junk : Nat → Nat) (ihl : Nat) : Bool :=
  let ipOff := word16 pkt junk 20
  let fragOffset := ipOff &&& 0x1FFF
  let moreFrags := ipOff &&& 0x2000
  if fragOffset = 0 ∧ moreFrags = 0 then false
  else decide (pkt.length ≤ 14 + ihl)

/-- `is_malformed` (malformed.c lines 141-254): `some r` means the
packet is rejected with reason `r`, `none` means it passes. -/
def is_malformed (pkt : List Nat) (junk : Nat → Nat) : Option MalformedReason :=
  if pkt.length < 14 then some .too_short
  else if word16 pkt junk 12 ≠ 0x0800 then none
  else if pkt.length < 14 + 20 then some .truncated_ip_hdr
  else
    let ihl := byteAt pkt junk 14 % 16 * 4
    if ihl < 20 then some .invalid_ihl
    else
      let totalLen := word16 pkt junk 16
      let wireIpBytes := pkt.length - 14
      if totalLen < ihl ∨ wireIpBytes < ihl then some .truncated_total
      else if ¬ ip_checksum_ok pkt junk ihl then some .bad_checksum
      else if fragmentation_anomaly pkt junk ihl then some .frag_anomaly
      else
        let l4off := 14 + ihl
        let l4len := if l4off < pkt.length then pkt.length - l4off else 0
        let proto := byteAt pkt junk 23
        if proto = 6 then
          if l4len < 20 then some .tcp_truncated
          else
            let thOff := byteAt pkt junk (l4off + 12) / 16 * 4
            if thOff < 20 ∨ l4len < thOff then some .tcp_off_invalid
            else
              let flags := byteAt pkt junk (l4off + 13)
              if flags &&& 0x01 ≠ 0 ∧ flags &&& 0x02 ≠ 0 then some .syn_fin
              else if ¬ tcp_checksum_ok pkt junk l4off l4len then some .tcp_cksum_bad
              else none
        else if proto = 17 then
          if l4len < 8 then some .udp_truncated
          else
            let udplen := word16 pkt junk (l4off + 4)
            if udplen < 8 ∨ l4len < udplen then some .udp_len_invalid
            else none
        else none

/-! ## rate_limit.c : the token-bucket SYN-flood limiter -/

/-- `rl_mode_t` (rate_limit.h). -/
inductive RLMode
  | incoming
  | outgoing
  | both
deriving DecidableEq

/-- `rl_entry` (rate_limit.c line 41), minus the intrusive chain link. -/
structure RLEntry where
  tokens : ℚ
  last_ts : ℚ
deriving DecidableEq

/-- Module state of rate_limit.c: the per-source table (chained hash
table flattened to an association list, newest entry of a chain first)
and the allowed/dropped counters. -/
structure RLState where
  entries : List (Nat × RLEntry)
  rl_allowed : Nat
  rl_dropped : Nat
deriving DecidableEq

/-- Module configuration of rate_limit.c: `RATE_TOKENS_PER_SEC`,
`BURST_CAPACITY`, `rl_mode`, the local-address table, `MAX_ENTRIES`. -/
structure RLConfig where
  rate : ℚ
  burst : ℚ
  mode : RLMode
  localIps : List Nat
  maxEntries : Nat

/-- The configuration as initialised by default: rate 1 token/s,
burst 2, mode BOTH, table capped at `MAX_ENTRIES = 65536`. -/
def defaultRLConfig (localIps : List Nat) : RLConfig :=
  { rate := 1, burst := 2, mode := .both, localIps := localIps, maxEntries := 65536 }

/-- `is_tcp_syn_and_ips` (rate_limit.c lines 64-85): `some` with
(src port, dst port, src ip, dst ip) exactly for an IPv4 TCP packet,
fully captured through the fixed TCP header, carrying SYN without ACK.
Every read is dominated by a caplen guard, so `junk` is never hit. -/
def is_tcp_syn_and_ips (pkt : List Nat) (junk : Nat → Nat) :
    Option (Nat × Nat × Nat × Nat) :=
  if pkt.length < 14 then none
  else if word16 pkt junk 12 ≠ 0x0800 then none
  else if pkt.length < 14 + 20 then none
  else if byteAt pkt junk 23 ≠ 6 then none
  else
    let ihl := byteAt pkt junk 14 % 16 * 4
    if ihl < 20 then none
    else
      let off := 14 + ihl
      if pkt.length < off + 20 then none
      else
        let flags := byteAt pkt junk (off + 13)
        if flags &&& 0x02 ≠ 0 ∧ flags &&& 0x10 = 0 then
          some (word16 pkt junk off, word16 pkt junk (off + 2),
                ip32 pkt junk 26, ip32 pkt junk 30)
        else none

/-- Lookup in the entry table (the chain scan of `get_or_create_entry`). -/
def rlFind (entries : List (Nat × RLEntry)) (ip : Nat) : Option RLEntry :=
  (entries.find? fun p => p.1 = ip).map Prod.snd

/-- Write an updated entry back over the first table slot holding `ip`
(the C code mutates the found entry in place). -/
def rlUpdate (ip : Nat) (e' : RLEntry) : List (Nat × RLEntry) → List (Nat × RLEntry)
  | [] => []
  | (k, v) :: rest =>
    if k = ip then (k, e') :: rest else (k, v) :: rlUpdate ip e' rest

/-- Token refill of `rate_limit_check` (rate_limit.c lines 174-180):
add `(now - last_refill) * rate` when positive, cap at the burst
capacity, stamp the refill time. -/
def rlRefill (e : RLEntry) (now rate burst : ℚ) : RLEntry :=
  if (now - e.last_ts) * rate > 0 then
    { tokens := min (e.tokens + (now - e.last_ts) * rate) burst, last_ts := now }
  else e

/-- Token consumption of `rate_limit_check` (rate_limit.c line 182):
admit and take one token when at least one is available. -/
def rlConsume (e : RLEntry) : RLEntry × Bool :=
  if e.tokens ≥ 1 then ({ e with tokens := e.tokens - 1 }, true) else (e, false)

/-- Outcome of one `rate_limit_check` call; a drop always prints
reason `SYN_FLOOD`. -/
inductive RLResult
  | allowed
  | droppedSynFlood
deriving DecidableEq

/-- The per-source-entry part of `rate_limit_check` (rate_limit.c
lines 171-195) together with `get_or_create_entry` (lines 54-61):
look the source up, create an entry at full burst when the table still
has room (fail-open when it has not), refill, and consume one token or
drop.  A freshly created entry is stamped with the call's `now`
reading (its creation happens microseconds earlier in the C code,
which only shrinks the first refill towards 0). -/
def rlProcessSyn (cfg : RLConfig) (sip : Nat) (now : ℚ) (st : RLState) :
    RLResult × RLState :=
  match rlFind st.entries sip with
  | some e =>
    let c := rlConsume (rlRefill e now cfg.rate cfg.burst)
    if c.2 then
      (.allowed, { st with entries := rlUpdate sip c.1 st.entries,
                           rl_allowed := st.rl_allowed + 1 })
    else
      (.droppedSynFlood, { st with entries := rlUpdate sip c.1 st.entries,
                                   rl_dropped := st.rl_dropped + 1 })
  | none =>
    if st.entries.length ≥ cfg.maxEntries then
      (.allowed, { st with rl_allowed := st.rl_allowed + 1 })
    else
      let c := rlConsume (rlRefill (RLEntry.mk cfg.burst now) now cfg.rate cfg.burst)
      if c.2 then
        (.allowed, { st with entries := (sip, c.1) :: st.entries,
                             rl_allowed := st.rl_allowed + 1 })
      else
        (.droppedSynFlood, { st with entries := (sip, c.1) :: st.entries,
                                     rl_dropped := st.rl_dropped + 1 })

/-- `rate_limit_check` (rate_limit.c lines 152-196): non-SYN traffic
passes unconditionally; the direction mode decides whether the SYN is
evaluated at all; otherwise the per-source token bucket decides.
`now` is the `now_seconds()` wall-clock reading of the call. -/
def rate_limit_check (cfg : RLConfig) (pkt : List Nat) (junk : Nat → Nat)
    (now : ℚ) (st : RLState) : RLResult × RLState :=
  match is_tcp_syn_and_ips pkt junk with
  | none => (.allowed, { st with rl_allowed := st.rl_allowed + 1 })
  | some (_sp, _dp, sip, dip) =>
    let enforce : Bool :=
      match cfg.mode with
      | .both => true
      | .incoming => decide (dip ∈ cfg.localIps)
      | .outgoing => decide (sip ∈ cfg.localIps)
    if enforce = false then (.allowed, { st with rl_allowed := st.rl_allowed + 1 })
    else rlProcessSyn cfg sip now st

/-- Run `rate_limit_check` over a sequence of wall-clock arrival times
of one and the same packet, collecting the per-call results. -/
def rlRun (cfg : RLConfig) (pkt : List Nat) (junk : Nat → Nat) :
    List ℚ → RLState → List RLResult × RLState
  | [], st => ([], st)
  | t :: ts, st =>
    let r := rate_limit_check cfg pkt junk t st
    let rest := rlRun cfg pkt junk ts r.2
    (r.1 :: rest.1, rest.2)

/-! ## capture.c : the per-packet callback -/

/-- How `pcap_callback` finishes for one packet. `budgetStop` is the
early return taken when the global processed-packet count has reached
`PACKET_LIMIT`: the callback breaks all capture loops and returns
before any filter runs. -/
inductive Outcome
  | accepted
  | denylistDrop
  | rateLimitDrop
  | malformedDrop
  | budgetStop
deriving DecidableEq

/-- Run-wide configuration reaching the callback: `PACKET_LIMIT`, the
loaded denylists and the rate-limiter configuration. -/
structure CaptureConfig where
  packetLimit : Nat
  denyIps : List Nat
  denyPorts : List Nat
  rl : RLConfig

/-- The mutable module states the callback touches. -/
structure SysState where
  agg : AggState
  rl : RLState
deriving DecidableEq

/-- `pcap_callback` (capture.c lines 147-184).  Pipeline 1
(`process_packet`) always runs first; then the budget check on the
freshly incremented `captured_count`; then the sequential filter chain
denylist → rate limit → malformed, each drop short-circuiting. -/
def pcap_callback (cfg : CaptureConfig) (st : SysState) (pkt : Packet)
    (junk : Nat → Nat) (wallNow : ℚ) : SysState × Outcome :=
  let agg' := process_packet st.agg pkt junk
  if agg'.captured ≥ cfg.packetLimit then
    ({ st with agg := agg' }, .budgetStop)
  else if check_denylist cfg.denyIps cfg.denyPorts pkt.bytes junk ≠ .allow then
    ({ st with agg := agg' }, .denylistDrop)
  else
    let r := rate_limit_check cfg.rl pkt.bytes junk wallNow st.rl
    if r.1 = .droppedSynFlood then ({ agg := agg', rl := r.2 }, .rateLimitDrop)
    else if (is_malformed pkt.bytes junk).isSome then ({ agg := agg', rl := r.2 }, .malformedDrop)
    else ({ agg := agg', rl := r.2 }, .accepted)

/-! ## capture.c : process exit status of `main` -/

/-- `should_skip_interface` (capture.c lines 59-76): substring tests
on the device name. -/
def should_skip_interface (name : String) : Bool :=
  decide ("bluetooth".toList <:+: name.toList) ||
  decide ("dbus".toList <:+: name.toList) ||
  decide ("nflog".toList <:+: name.toList) ||
  decide ("nfqueue".toList <:+: name.toList) ||
  decide ("any".toList <:+: name.toList)

/-- Environment `main` runs against, abstracting the getopt outcome
and the libpcap/OS responses. -/
structure MainEnv where
  usageError : Bool
  findAllDevsOk : Bool
  devices : List String
  singleDev : Option String
  allocOk : Bool
  openOk : String → Bool
  datalinkOk : String → Bool

/-- Whether a device survives the candidate filter of `main`
(capture.c lines 246-250): with `-i` only the named device, otherwise
everything `should_skip_interface` does not reject. -/
def candidateDevice (env : MainEnv) (name : String) : Bool :=
  match env.singleDev with
  | some d => name = d
  | none => ! should_skip_interface name

/-- The exit status of `main` (capture.c lines 200-375).  Every early
`goto cleanup_*` path falls through to the final `return 0`; only the
usage/help branch of getopt returns 1. -/
def mainExitCode (env : MainEnv) : Nat :=
  if env.usageError then 1
  else if env.findAllDevsOk = false then 0
  else if env.devices = [] then 0
  else
    let cands := env.devices.filter (candidateDevice env)
    if cands = [] then 0
    else if env.allocOk = false then 0
    else
      let opened := cands.filter fun d => env.openOk d && env.datalinkOk d
      if opened = [] then 0
      else 0

/-! ## malformed_log.c : the durable event log -/

/-- The fields `malformed_log_packet` writes per line: timestamp,
captured length, hex preview of the first 32 captured bytes. -/
def logLine (pkt : Packet) : ℚ × Nat × List Nat :=
  (pkt.ts, pkt.bytes.length, pkt.bytes.take 32)

/-- The two files `malformed_log.c` manipulates: `malformed.csv.tmp`
and `malformed.csv`; `none` = the file does not exist. -/
structure LogFS where
  tmp : Option (List (ℚ × Nat × List Nat))
  final : Option (List (ℚ × Nat × List Nat))
deriving DecidableEq

/-- `malformed_log_packet` (malformed_log.c lines 48-86):
`fopen("malformed.csv.tmp", "a")` creates the tmp file when absent and
appends one line, then `rename` moves the tmp file over
`malformed.csv`, replacing it.  I/O always succeeds in the model (the
"w"+header fallback only runs when `fopen(..., "a")` fails). -/
def malformed_log_packet (fs : LogFS) (pkt : Packet) : LogFS :=
  let contents := fs.tmp.getD [] ++ [logLine pkt]
  { tmp := none, final := some contents }

/-! ## Concrete inputs used by witnesses and counterexamples -/

/-- Memory beyond the captured bytes holding zeros. -/
def junk0 : Nat → Nat := fun _ => 0

/-- Memory beyond the captured bytes that happens to hold the bytes
10,0,0,1 where `check_denylist` expects the IPv4 source address. -/
def junkDeny : Nat → Nat := fun i => if i = 26 then 10 else if i = 29 then 1 else 0

/-- A frame whose captured length is exactly the 14 Ethernet-header
bytes, with ethertype IPv4: nothing of the IP header was captured. -/
def pkt14 : List Nat := [0, 0, 0, 0, 0, 0, 0, 0, 0, 0, 0, 0, 0x08, 0x00]

/-- Captured bytes of a 42-byte ICMP echo packet 127.0.0.1 → 127.0.0.1
(Ethernet, 20-byte IPv4 header, 8 ICMP bytes). -/
def icmpLoopBytes : List Nat :=
  [0, 0, 0, 0, 0, 0, 0, 0, 0, 0, 0, 0, 0x08, 0x00,
   0x45, 0x00, 0x00, 0x1C, 0x00, 0x00, 0x00, 0x00, 0x40, 0x01, 0x00, 0x00,
   127, 0, 0, 1, 127, 0, 0, 1,
   8, 0, 0, 0, 0, 0, 0, 0]

/-- ICMP echo 10.0.0.1 → 10.0.0.2 (forward). -/
def icmpFwdBytes : List Nat :=
  [0, 0, 0, 0, 0, 0, 0, 0, 0, 0, 0, 0, 0x08, 0x00,
   0x45, 0x00, 0x00, 0x1C, 0x00, 0x00, 0x00, 0x00, 0x40, 0x01, 0x00, 0x00,
   10, 0, 0, 1, 10, 0, 0, 2,
   8, 0, 0, 0, 0, 0, 0, 0]

/-- ICMP echo reply 10.0.0.2 → 10.0.0.1 (reverse direction). -/
def icmpRevBytes : List Nat :=
  [0, 0, 0, 0, 0, 0, 0, 0, 0, 0, 0, 0, 0x08, 0x00,
   0x45, 0x00, 0x00, 0x1C, 0x00, 0x00, 0x00, 0x00, 0x40, 0x01, 0x00, 0x00,
   10, 0, 0, 2, 10, 0, 0, 1,
   0, 0, 0, 0, 0, 0, 0, 0]

/-- The loopback echo request as a packet (timestamp 0). -/
def icmpLoop1 : Packet := ⟨0, icmpLoopBytes, 42⟩

/-- The loopback echo reply: same endpoints both 127.0.0.1 (timestamp 1). -/
def icmpLoop2 : Packet := ⟨1, icmpLoopBytes, 42⟩

/-- Forward echo between distinct hosts. -/
def icmpFwd : Packet := ⟨0, icmpFwdBytes, 42⟩

/-- Reply echo between distinct hosts. -/
def icmpRev : Packet := ⟨1, icmpRevBytes, 42⟩

/-- An empty aggregator state (start of a batch). -/
def agg0 : AggState := ⟨0, []⟩

/-! ## C8 : the syn/ack and syn/fin ratio sentinels -/

/-- C8: for every flow row emitted by the batch report, the
syn/ack-ratio field is `syn_count/ack_count` when `ack_count > 0`,
999.0 when `ack_count = 0` and `syn_count > 0`, and 0.0 when both are
zero; and the syn/fin-ratio field satisfies the same law with
`fin_count` as denominator (preprocess.c lines 249-250). -/
theorem C8_ratio_sentinels (ia : Interaction) :
    (0 < ia.ack_count → (reportRow ia).syn_ack_ratio = (ia.syn_count : ℚ) / ia.ack_count) ∧
    (ia.ack_count = 0 → 0 < ia.syn_count → (reportRow ia).syn_ack_ratio = 999) ∧
    (ia.ack_count = 0 → ia.syn_count = 0 → (reportRow ia).syn_ack_ratio = 0) ∧
    (0 < ia.fin_count → (reportRow ia).syn_fin_ratio = (ia.syn_count : ℚ) / ia.fin_count) ∧
    (ia.fin_count = 0 → 0 < ia.syn_count → (reportRow ia).syn_fin_ratio = 999) ∧
    (ia.fin_count = 0 → ia.syn_count = 0 → (reportRow ia).syn_fin_ratio = 0) := by
  unfold reportRow
  refine ⟨fun h => ?_, fun h h' => ?_, fun h h' => ?_,
          fun h => ?_, fun h h' => ?_, fun h h' => ?_⟩ <;>
    simp only [] <;> split_ifs <;> first | rfl | omega

/-- Interaction used to instantiate C8. -/
def iaC8 : Interaction :=
  { newInteraction 1 2 3 4 6 0 with syn_count := 3, ack_count := 2, fin_count := 0 }

/-- Witness for C8 at a concrete interaction with 3 SYNs, 2 ACKs and
no FIN: the ratio fields are 3/2 and the 999 sentinel. -/
theorem C8_ratio_sentinels_witness :
    (reportRow iaC8).syn_ack_ratio = (3 : ℚ) / 2 ∧ (reportRow iaC8).syn_fin_ratio = 999 := by
  have h := C8_ratio_sentinels iaC8
  exact ⟨h.1 (by decide), h.2.2.2.2.1 (by decide) (by decide)⟩

/-! ## C5 : process exit status -/

/-- Environment in which no capture-capable device exists at all. -/
def envNoDevices : MainEnv :=
  { usageError := false, findAllDevsOk := true, devices := [], singleDev := none,
    allocOk := true, openOk := fun _ => true, datalinkOk := fun _ => true }

/-- Environment in which the startup table allocation fails. -/
def envAllocFail : MainEnv :=
  { usageError := false, findAllDevsOk := true, devices := ["eth0"], singleDev := none,
    allocOk := false, openOk := fun _ => true, datalinkOk := fun _ => true }

/-- C5 counterexample: `main` exits with status 0 both when no
capture-capable interface is found and when the startup allocation
fails — the claim requires a non-zero exit code in those situations,
but every `goto cleanup_*` path of capture.c falls through to the
final `return 0`. -/
theorem C5_counterexample : mainExitCode envNoDevices = 0 ∧ mainExitCode envAllocFail = 0 := by
  constructor <;> rfl

/-- C5 (amended): the process exits 0 on every path except an invalid
command line (or `-h`), which exits 1; in particular it also exits 0
on unrecoverable setup failures such as no matching device or
out-of-memory during table allocation. -/
theorem C5_exit_code (env : MainEnv) :
    mainExitCode env = if env.usageError then 1 else 0 := by
  unfold mainExitCode
  split_ifs <;> simp

/-! ## C4 : the malformed event log -/

/-- Packets standing for two consecutively rejected malformed frames. -/
def mlPkt1 : Packet := ⟨0, [1, 2, 3], 3⟩

/-- The second rejected frame, with a different timestamp and bytes. -/
def mlPkt2 : Packet := ⟨1, [4, 5, 6], 3⟩

/-- C4 failing run: starting from no log files, logging a first
rejected packet leaves `malformed.csv` holding its line, but logging a
second one leaves the file holding only the second line — the first
committed line is gone, because each call re-creates an empty
`malformed.csv.tmp` (the previous one was renamed away) and renames it
over the log.  This contradicts the claim (and malformed_log.c's own
description of itself as an appender). -/
theorem C4_append_lost :
    (malformed_log_packet ⟨none, none⟩ mlPkt1).final = some [logLine mlPkt1] ∧
    (malformed_log_packet (malformed_log_packet ⟨none, none⟩ mlPkt1) mlPkt2).final
      = some [logLine mlPkt2] ∧
    logLine mlPkt1 ∉ [logLine mlPkt2] := by
  decide

/-! ## C6 : denylist reads past the captured bytes -/

/-- C6 failing run: on a frame captured up to exactly the Ethernet
header (14 bytes, ethertype IPv4), the verdict of `check_denylist`
depends on the memory lying beyond the captured bytes: with zeros
there the packet passes, but when that memory happens to hold a
denylisted address (10.0.0.1 = 167772161) at the source-address
offset, the packet is dropped with reason deny_ip.  The C code reads
the IP header fields without checking they were captured, so it
neither "reads no bytes beyond the captured length" nor
unconditionally passes such packets. -/
theorem C6_oob_read :
    check_denylist [167772161] [] pkt14 junk0 = .allow ∧
    check_denylist [167772161] [] pkt14 junkDeny = .denyIp := by
  decide

/-! ## C10 : unparseable destination ports and the port rule -/

/-- Every port stored by `load_deny_ports` lies in 1..65535. -/
lemma load_deny_ports_mem {x : Nat} {vals : List Int}
    (hx : x ∈ load_deny_ports vals) : 1 ≤ x ∧ x ≤ 65535 := by
  unfold load_deny_ports at hx
  have hx' := List.mem_of_mem_take hx
  rcases List.mem_map.mp hx' with ⟨v, hv, rfl⟩
  rcases List.mem_filter.mp hv with ⟨-, hcond⟩
  simp only [Bool.and_eq_true, decide_eq_true_eq] at hcond
  omega

/-- C10: a packet from which `check_denylist` cannot parse a
destination port (ICMP/other protocol, or a truncated TCP/UDP header,
all of which leave the parsed port at 0) is never dropped with reason
deny_port, because the port rule requires a non-zero parsed port; and
port 0 can never enter the deny-port set, since `load_deny_ports`
keeps only values in 1..65535. -/
theorem C10_port_zero_never_denied (denyIps : List Nat) (portVals : List Int)
    (pkt : List Nat) (junk : Nat → Nat)
    (h0 : denyDstPort pkt junk = 0) :
    0 ∉ load_deny_ports portVals ∧
    check_denylist denyIps (load_deny_ports portVals) pkt junk ≠ .denyPort := by
  constructor
  · intro hmem
    have := load_deny_ports_mem hmem
    omega
  · intro hEq
    unfold check_denylist at hEq
    split_ifs at hEq with h1 h2 h3 h4
    exact h4.1 h0

/-- Witness for C10: an ICMP packet (no transport ports) against a
port list whose raw values are 0, 22 and 70000 — the loaded set
contains neither 0 nor 70000, and the packet is not port-denied. -/
theorem C10_witness :
    0 ∉ load_deny_ports [0, 22, 70000] ∧
    check_denylist [] (load_deny_ports [0, 22, 70000]) icmpLoopBytes junk0 ≠ .denyPort :=
  C10_port_zero_never_denied [] [0, 22, 70000] icmpLoopBytes junk0 (by decide)

/-! ## C3 : flow directionality and the loopback echo scenario -/

/-- C3 counterexample: two ICMP echo packets between 127.0.0.1 and
127.0.0.1 (forward and reply) do NOT aggregate into a record with
pkts_sent = 1 and pkts_received = 1.  Because source and destination
coincide, the reply matches the exact key already in its first scan,
so both packets count in the "sent" direction: the single record ends
with pkts_sent = 2 and pkts_received = 0. -/
theorem C3_loopback_counterexample :
    ((process_packet (process_packet agg0 icmpLoop1 junk0) icmpLoop2 junk0).interactions.map
      fun ia => (ia.pkts_sent, ia.pkts_received)) = [(2, 0)] := by
  decide

/-- C3 (amended): the aggregator matches the exact key first, then the
reversed key, and otherwise creates a record counting the observed
direction as "sent".  Hence two ICMP echo packets between the distinct
hosts 10.0.0.1 and 10.0.0.2, forward and reply, aggregate into a
single record keyed by the first packet's direction with
pkts_sent = 1 and pkts_received = 1; for the loopback pair
127.0.0.1 → 127.0.0.1 the reversed key coincides with the exact key,
so the single record ends with pkts_sent = 2 and pkts_received = 0. -/
theorem C3_direction_scenarios :
    ((process_packet (process_packet agg0 icmpFwd junk0) icmpRev junk0).interactions.map
      fun ia => (ia.src_ip, ia.dst_ip, ia.pkts_sent, ia.pkts_received))
      = [(167772161, 167772162, 1, 1)] ∧
    ((process_packet (process_packet agg0 icmpLoop1 junk0) icmpLoop2 junk0).interactions.map
      fun ia => (ia.src_ip, ia.dst_ip, ia.pkts_sent, ia.pkts_received))
      = [(2130706433, 2130706433, 2, 0)] := by
  decide

/-! ## C1 : unconditional aggregation and the per-packet outcome -/

/-- Configuration with a packet budget of 1 and empty deny lists. -/
def cfgBudget1 : CaptureConfig :=
  { packetLimit := 1, denyIps := [], denyPorts := [], rl := defaultRLConfig [] }

/-- Initial system state: empty flow table, empty rate-limit table. -/
def sysSt0 : SysState := ⟨⟨0, []⟩, ⟨[], 0, 0⟩⟩

/-- C1 counterexample: with the packet budget already reached by this
very packet (limit 1), the callback still aggregates the packet
(captured count 1, one flow record) but then returns at the budget
check, so none of the four outcomes accepted / denylist-dropped /
rate-limit-dropped / malformed-dropped holds for it. -/
theorem C1_budget_counterexample :
    (pcap_callback cfgBudget1 sysSt0 icmpLoop1 junk0 0).2 = .budgetStop ∧
    Outcome.budgetStop ≠ .accepted ∧
    Outcome.budgetStop ≠ .denylistDrop ∧
    Outcome.budgetStop ≠ .rateLimitDrop ∧
    Outcome.budgetStop ≠ .malformedDrop ∧
    (pcap_callback cfgBudget1 sysSt0 icmpLoop1 junk0 0).1.agg.captured = 1 ∧
    (pcap_callback cfgBudget1 sysSt0 icmpLoop1 junk0 0).1.agg.interactions.length = 1 := by
  decide

/-- C1 (amended): for every packet delivered to the callback, the flow
aggregator records it first and unconditionally (the resulting
aggregator state is exactly `process_packet` of the previous one, for
every outcome); the callback then finishes with exactly one of the
five outcomes accepted, denylist-dropped, rate-limit-dropped,
malformed-dropped or budget-stop, and the budget-stop outcome occurs
precisely when the freshly incremented global packet count has reached
the packet budget — such packets receive none of the four filter
outcomes. -/
theorem C1_aggregation_and_outcome (cfg : CaptureConfig) (st : SysState)
    (pkt : Packet) (junk : Nat → Nat) (now : ℚ) :
    (pcap_callback cfg st pkt junk now).1.agg = process_packet st.agg pkt junk ∧
    ((pcap_callback cfg st pkt junk now).2 = .budgetStop ↔
      cfg.packetLimit ≤ (process_packet st.agg pkt junk).captured) ∧
    ((pcap_callback cfg st pkt junk now).2 = .accepted ∨
     (pcap_callback cfg st pkt junk now).2 = .denylistDrop ∨
     (pcap_callback cfg st pkt junk now).2 = .rateLimitDrop ∨
     (pcap_callback cfg st pkt junk now).2 = .malformedDrop ∨
     (pcap_callback cfg st pkt junk now).2 = .budgetStop) := by
  unfold pcap_callback
  by_cases hb : cfg.packetLimit ≤ (process_packet st.agg pkt junk).captured <;>
    simp only [ge_iff_le, hb, if_true, if_false, iff_true, iff_false] <;>
    (try split_ifs) <;> simp_all

/-- Witness for C1 at a concrete run: a fresh state with budget 50,
where the ICMP loopback packet is below budget and gets accepted,
while the aggregator state is the `process_packet` image. -/
theorem C1_aggregation_and_outcome_witness :
    (pcap_callback { cfgBudget1 with packetLimit := 50 } sysSt0 icmpLoop1 junk0 0).1.agg
      = process_packet sysSt0.agg icmpLoop1 junk0 :=
  (C1_aggregation_and_outcome { cfgBudget1 with packetLimit := 50 } sysSt0 icmpLoop1 junk0 0).1

/-! ## C7 : token-count invariant of the rate limiter -/

/-- A successful table lookup returns an entry stored under that key. -/
lemma rlFind_mem {l : List (Nat × RLEntry)} {ip : Nat} {e : RLEntry}
    (h : rlFind l ip = some e) : (ip, e) ∈ l := by
  unfold rlFind at h
  rcases Option.map_eq_some'.mp h with ⟨q, hq, hsnd⟩
  have hmem := List.mem_of_find?_eq_some hq
  have hkey := List.find?_some hq
  simp only [decide_eq_true_eq] at hkey
  obtain ⟨k, v⟩ := q
  cases hkey
  cases hsnd
  exact hmem

/-- Every element of the written-back table is either the new entry or
an element of the old table. -/
lemma rlUpdate_mem {ip : Nat} {e' : RLEntry} {q : Nat × RLEntry} :
    ∀ {l : List (Nat × RLEntry)}, q ∈ rlUpdate ip e' l → q.2 = e' ∨ q ∈ l := by
  intro l
  induction l with
  | nil => intro h; simp [rlUpdate] at h
  | cons p rest ih =>
    obtain ⟨k, v⟩ := p
    intro h
    rw [rlUpdate] at h
    split_ifs at h with hk
    · rcases List.mem_cons.mp h with h1 | h1
      · left; rw [h1]
      · right; exact List.mem_cons_of_mem _ h1
    · rcases List.mem_cons.mp h with h1 | h1
      · right; rw [h1]; exact List.mem_cons_self _ _
      · rcases ih h1 with h2 | h2
        · left; exact h2
        · right; exact List.mem_cons_of_mem _ h2

/-- The refill step keeps the token count inside [0, burst]. -/
lemma rlRefill_bounds {e : RLEntry} {now rate burst : ℚ}
    (h0 : 0 ≤ e.tokens) (hb : e.tokens ≤ burst) (hbn : 0 ≤ burst) :
    0 ≤ (rlRefill e now rate burst).tokens ∧ (rlRefill e now rate burst).tokens ≤ burst := by
  unfold rlRefill
  split_ifs with hadd
  · exact ⟨le_min (by linarith) hbn, min_le_right _ _⟩
  · exact ⟨h0, hb⟩

/-- The consume step keeps the token count inside [0, burst]. -/
lemma rlConsume_bounds {e : RLEntry} {burst : ℚ}
    (h0 : 0 ≤ e.tokens) (hb : e.tokens ≤ burst) :
    0 ≤ (rlConsume e).1.tokens ∧ (rlConsume e).1.tokens ≤ burst := by
  unfold rlConsume
  split_ifs with h1 <;> dsimp only <;> constructor <;> linarith

/-- The table after `rlProcessSyn` is the old table, the old table
with the stepped image of a found entry written back, or the old table
with the stepped image of a fresh full-burst entry pushed on front. -/
lemma rlProcessSyn_entries (cfg : RLConfig) (sip : Nat) (now : ℚ) (st : RLState) :
    (rlProcessSyn cfg sip now st).2.entries = st.entries ∨
    (∃ e, rlFind st.entries sip = some e ∧
      (rlProcessSyn cfg sip now st).2.entries =
        rlUpdate sip (rlConsume (rlRefill e now cfg.rate cfg.burst)).1 st.entries) ∨
    (rlProcessSyn cfg sip now st).2.entries =
      (sip, (rlConsume (rlRefill (RLEntry.mk cfg.burst now) now cfg.rate cfg.burst)).1)
        :: st.entries := by
  unfold rlProcessSyn
  cases hf : rlFind st.entries sip with
  | some e =>
    dsimp only
    split_ifs with hc
    · exact Or.inr (Or.inl ⟨e, rfl, rfl⟩)
    · exact Or.inr (Or.inl ⟨e, rfl, rfl⟩)
  | none =>
    dsimp only
    split_ifs with hfull hc
    · exact Or.inl rfl
    · exact Or.inr (Or.inr rfl)
    · exact Or.inr (Or.inr rfl)

/-- C7: across any single call to `rate_limit_check` (hence, by
induction, across every call), every entry of the table keeps its
token count within [0, burst_capacity]: a fresh entry starts at the
burst capacity, the refill adds `(now - last_refill) * rate` capped at
the burst capacity, and an admitted SYN consumes exactly one token
only when at least one is available. -/
theorem C7_token_bounds (cfg : RLConfig) (pkt : List Nat) (junk : Nat → Nat)
    (now : ℚ) (st : RLState)
    (hburst : 0 ≤ cfg.burst)
    (hinv : ∀ q ∈ st.entries, 0 ≤ q.2.tokens ∧ q.2.tokens ≤ cfg.burst) :
    ∀ q ∈ (rate_limit_check cfg pkt junk now st).2.entries,
      0 ≤ q.2.tokens ∧ q.2.tokens ≤ cfg.burst := by
  have hshape : (rate_limit_check cfg pkt junk now st).2.entries = st.entries ∨
      ∃ sip, (rate_limit_check cfg pkt junk now st).2.entries =
        (rlProcessSyn cfg sip now st).2.entries := by
    unfold rate_limit_check
    cases hp : is_tcp_syn_and_ips pkt junk with
    | none => exact Or.inl rfl
    | some v =>
      obtain ⟨sp, dp, sip, dip⟩ := v
      dsimp only
      split_ifs with hen
      · exact Or.inl rfl
      · exact Or.inr ⟨sip, rfl⟩
  intro q hq
  rcases hshape with hsh | ⟨sip, hsh⟩
  · rw [hsh] at hq
    exact hinv q hq
  · rw [hsh] at hq
    rcases rlProcessSyn_entries cfg sip now st with hc | ⟨e, hf, hc⟩ | hc
    · rw [hc] at hq
      exact hinv q hq
    · rw [hc] at hq
      have he := hinv _ (rlFind_mem hf)
      have h1 := @rlRefill_bounds e now cfg.rate cfg.burst he.1 he.2 hburst
      have h2 := rlConsume_bounds h1.1 h1.2
      rcases rlUpdate_mem hq with h3 | h3
      · rw [h3]; exact h2
      · exact hinv q h3
    · rw [hc] at hq
      have h1 := @rlRefill_bounds (RLEntry.mk cfg.burst now) now cfg.rate cfg.burst
        hburst le_rfl hburst
      have h2 := rlConsume_bounds h1.1 h1.2
      rcases List.mem_cons.mp hq with h3 | h3
      · rw [h3]; exact h2
      · exact hinv q h3

/-- Captured bytes of a 54-byte TCP SYN-without-ACK packet
10.0.0.99:40000 → 10.0.0.1:22 (Ethernet, 20-byte IPv4 header, 20-byte
TCP header, flag byte 0x02). -/
def synPkt : List Nat :=
  [0, 0, 0, 0, 0, 0, 0, 0, 0, 0, 0, 0, 0x08, 0x00,
   0x45, 0x00, 0x00, 0x28, 0x00, 0x00, 0x00, 0x00, 0x40, 0x06, 0x00, 0x00,
   10, 0, 0, 99, 10, 0, 0, 1,
   0x9C, 0x40, 0x00, 0x16, 0, 0, 0, 0, 0, 0, 0, 0,
   0x50, 0x02, 0xFF, 0xFF, 0, 0, 0, 0]

/-! ## C2 : a 10-SYN burst against the default token bucket -/

set_option maxRecDepth 10000 in
/-- `is_tcp_syn_and_ips` parses `synPkt` (for any contents of the
memory beyond the captured bytes: every read is in bounds) as a SYN
from 10.0.0.99 (= 167772259) port 40000 to 10.0.0.1 (= 167772161)
port 22. -/
lemma synPkt_parse (junk : Nat → Nat) :
    is_tcp_syn_and_ips synPkt junk = some (40000, 22, 167772259, 167772161) := by
  norm_num [is_tcp_syn_and_ips, byteAt, word16, ip32, synPkt]
  exact fun h => absurd (by decide) h

/-- First SYN from a source with no table entry (and a non-full
table), with the default parameters rate 1 and burst 2: the entry is
created at 2 tokens, refilled by zero, and one token is consumed, so
the packet is admitted and the stored entry holds 1 token. -/
lemma rl_syn_create (lips : List Nat) (junk : Nat → Nat) (now : ℚ) (st : RLState)
    (hfind : rlFind st.entries 167772259 = none)
    (hroom : st.entries.length < 65536) :
    rate_limit_check (defaultRLConfig lips) synPkt junk now st =
      (.allowed, ⟨(167772259, ⟨1, now⟩) :: st.entries,
        st.rl_allowed + 1, st.rl_dropped⟩) := by
  unfold rate_limit_check
  rw [synPkt_parse]
  dsimp only [defaultRLConfig]
  rw [if_neg (by decide)]
  unfold rlProcessSyn
  rw [hfind]
  dsimp only
  rw [if_neg (by omega)]
  have hrefill : rlRefill (RLEntry.mk 2 now) now 1 2 = RLEntry.mk 2 now := by
    unfold rlRefill
    rw [if_neg (by dsimp only; rw [sub_self, zero_mul]; exact lt_irrefl 0)]
  rw [hrefill]
  have hcons : rlConsume (RLEntry.mk 2 now) = (RLEntry.mk 1 now, true) := by
    unfold rlConsume
    rw [if_pos (by dsimp only; norm_num)]
    dsimp only
    norm_num
  rw [hcons]
  simp

/-- A SYN from a source already at the head of the table: refill then
consume-or-drop, writing the stepped entry back in place. -/
lemma rl_syn_found (lips : List Nat) (junk : Nat → Nat) (now : ℚ) (st : RLState)
    (e : RLEntry) (rest : List (Nat × RLEntry))
    (hent : st.entries = (167772259, e) :: rest) :
    rate_limit_check (defaultRLConfig lips) synPkt junk now st =
      (if (rlConsume (rlRefill e now 1 2)).2 then
        (.allowed, ⟨(167772259, (rlConsume (rlRefill e now 1 2)).1) :: rest,
          st.rl_allowed + 1, st.rl_dropped⟩)
      else
        (.droppedSynFlood, ⟨(167772259, (rlConsume (rlRefill e now 1 2)).1) :: rest,
          st.rl_allowed, st.rl_dropped + 1⟩)) := by
  unfold rate_limit_check
  rw [synPkt_parse]
  dsimp only [defaultRLConfig]
  rw [if_neg (by decide)]
  unfold rlProcessSyn
  have hfind : rlFind st.entries 167772259 = some e := by
    rw [hent]
    simp [rlFind]
  rw [hfind]
  dsimp only
  have hupd : rlUpdate 167772259 (rlConsume (rlRefill e now 1 2)).1 st.entries
      = (167772259, (rlConsume (rlRefill e now 1 2)).1) :: rest := by
    rw [hent]
    simp [rlUpdate]
  split_ifs with hc
  · rw [hupd]
  · rw [hupd]

/-- Witness for C7 on a concrete call: one SYN admitted into an empty
table with the default configuration leaves the stored entry's token
count inside [0, 2]. -/
theorem C7_token_bounds_witness :
    0 ≤ (RLEntry.mk 1 0).tokens ∧ (RLEntry.mk 1 0).tokens ≤ (defaultRLConfig []).burst :=
  C7_token_bounds (defaultRLConfig []) synPkt junk0 0 ⟨[], 0, 0⟩
    (by norm_num [defaultRLConfig]) (by simp)
    (167772259, RLEntry.mk 1 0)
    (by
      have h := rl_syn_create [] junk0 0 ⟨[], 0, 0⟩ (by simp [rlFind]) (by norm_num)
      rw [h]
      exact List.mem_cons_self _ _)

/-- Once the head entry's token count equals `last_ts - base` for some
base with every upcoming arrival time at most `M` and `M - base < 1`,
every further SYN of the burst is rejected: refills never accumulate a
whole token.  The counters record the drops and no admissions. -/
lemma rl_reject_run (lips : List Nat) (junk : Nat → Nat) (base M : ℚ)
    (hM : M - base < 1) :
    ∀ (ts : List ℚ) (st : RLState) (e : RLEntry) (rest : List (Nat × RLEntry)),
      st.entries = (167772259, e) :: rest →
      e.tokens = e.last_ts - base →
      e.last_ts ≤ M →
      (∀ t ∈ ts, t ≤ M) →
      (rlRun (defaultRLConfig lips) synPkt junk ts st).1 =
        List.replicate ts.length .droppedSynFlood ∧
      (rlRun (defaultRLConfig lips) synPkt junk ts st).2.rl_allowed = st.rl_allowed ∧
      (rlRun (defaultRLConfig lips) synPkt junk ts st).2.rl_dropped
        = st.rl_dropped + ts.length := by
  intro ts
  induction ts with
  | nil =>
    intro st e rest hent htok hlast hts
    simp [rlRun]
  | cons t ts ih =>
    intro st e rest hent htok hlast hts
    have ht : t ≤ M := hts t (List.mem_cons_self _ _)
    have key : (rlRefill e t 1 2).tokens = (rlRefill e t 1 2).last_ts - base ∧
        (rlRefill e t 1 2).last_ts ≤ M := by
      unfold rlRefill
      split_ifs with hadd
      · dsimp only
        constructor
        · have h1 : e.tokens + (t - e.last_ts) * 1 = t - base := by rw [htok]; ring
          rw [h1, min_eq_left (by linarith)]
        · exact ht
      · exact ⟨htok, hlast⟩
    have htoklt : (rlRefill e t 1 2).tokens < 1 := by
      rw [key.1]
      linarith [key.2]
    have hcons2 : (rlConsume (rlRefill e t 1 2)).2 = false := by
      unfold rlConsume
      rw [if_neg (not_le.mpr htoklt)]
    have hcons1 : (rlConsume (rlRefill e t 1 2)).1 = rlRefill e t 1 2 := by
      unfold rlConsume
      rw [if_neg (not_le.mpr htoklt)]
    have hstep := rl_syn_found lips junk t st e rest hent
    rw [hcons2] at hstep
    simp only [Bool.false_eq_true, if_false] at hstep
    rw [hcons1] at hstep
    have hrest := ih ⟨(167772259, rlRefill e t 1 2) :: rest,
        st.rl_allowed, st.rl_dropped + 1⟩ (rlRefill e t 1 2) rest rfl key.1 key.2
        (fun t' ht' => hts t' (List.mem_cons_of_mem _ ht'))
    simp only [rlRun, hstep]
    refine ⟨?_, ?_, ?_⟩
    · simp [hrest.1, List.replicate_succ]
    · simp [hrest.2.1]
    · simp [hrest.2.2]
      omega

/-- One unfolding step of `rlRun`, result component. -/
lemma rlRun_step1 (cfg : RLConfig) (pkt : List Nat) (junk : Nat → Nat)
    (t : ℚ) (ts : List ℚ) (st : RLState) (r : RLResult) (st' : RLState)
    (hstep : rate_limit_check cfg pkt junk t st = (r, st')) :
    (rlRun cfg pkt junk (t :: ts) st).1 = r :: (rlRun cfg pkt junk ts st').1 := by
  show ((rate_limit_check cfg pkt junk t st).1
      :: (rlRun cfg pkt junk ts (rate_limit_check cfg pkt junk t st).2).1)
    = r :: (rlRun cfg pkt junk ts st').1
  rw [hstep]

/-- One unfolding step of `rlRun`, state component. -/
lemma rlRun_step2 (cfg : RLConfig) (pkt : List Nat) (junk : Nat → Nat)
    (t : ℚ) (ts : List ℚ) (st : RLState) (r : RLResult) (st' : RLState)
    (hstep : rate_limit_check cfg pkt junk t st = (r, st')) :
    (rlRun cfg pkt junk (t :: ts) st).2 = (rlRun cfg pkt junk ts st').2 := by
  show (rlRun cfg pkt junk ts (rate_limit_check cfg pkt junk t st).2).2
    = (rlRun cfg pkt junk ts st').2
  rw [hstep]

/-- C2 (confirmed): with default parameters rate = 1 token/s and
burst = 2, a burst of 10 SYN-without-ACK packets from one source —
no prior table entry for it, table not full — all arriving within
100 ms (every arrival in [t0, t0 + 1/10]) gets exactly the first two
packets admitted and the remaining eight dropped, each drop carrying
reason SYN_FLOOD; the allowed/dropped counters advance by 2 and 8. -/
theorem C2_syn_flood_burst (lips : List Nat) (junk : Nat → Nat) (st : RLState)
    (t0 t1 t2 t3 t4 t5 t6 t7 t8 t9 : ℚ)
    (hfind : rlFind st.entries 167772259 = none)
    (hroom : st.entries.length < 65536)
    (hw : ∀ t ∈ [t1, t2, t3, t4, t5, t6, t7, t8, t9], t0 ≤ t ∧ t ≤ t0 + 1 / 10) :
    (rlRun (defaultRLConfig lips) synPkt junk [t0, t1, t2, t3, t4, t5, t6, t7, t8, t9] st).1
      = [.allowed, .allowed] ++ List.replicate 8 .droppedSynFlood ∧
    (rlRun (defaultRLConfig lips) synPkt junk [t0, t1, t2, t3, t4, t5, t6, t7, t8, t9] st).2.rl_allowed
      = st.rl_allowed + 2 ∧
    (rlRun (defaultRLConfig lips) synPkt junk [t0, t1, t2, t3, t4, t5, t6, t7, t8, t9] st).2.rl_dropped
      = st.rl_dropped + 8 := by
  have h0 := rl_syn_create lips junk t0 st hfind hroom
  have hw1 := hw t1 (by simp)
  have hr1 : rlRefill (RLEntry.mk 1 t0) t1 1 2 = RLEntry.mk (1 + (t1 - t0)) t1 := by
    unfold rlRefill
    dsimp only
    rcases lt_or_eq_of_le hw1.1 with hlt | heq
    · rw [if_pos (by rw [mul_one]; linarith), mul_one,
        min_eq_left (by linarith [hw1.2])]
    · rw [if_neg (by rw [← heq]; norm_num), ← heq]
      norm_num
  have hc1 : rlConsume (RLEntry.mk (1 + (t1 - t0)) t1) = (RLEntry.mk (t1 - t0) t1, true) := by
    unfold rlConsume
    dsimp only
    rw [if_pos (by linarith [hw1.1])]
    simp only [Prod.mk.injEq, RLEntry.mk.injEq, and_true]
    ring
  have h1 := rl_syn_found lips junk t1
    ⟨(167772259, ⟨1, t0⟩) :: st.entries, st.rl_allowed + 1, st.rl_dropped⟩
    ⟨1, t0⟩ st.entries rfl
  rw [hr1, hc1] at h1
  simp only [if_true] at h1
  have hrej := rl_reject_run lips junk t0 (t0 + 1 / 10) (by norm_num)
    [t2, t3, t4, t5, t6, t7, t8, t9]
    ⟨(167772259, RLEntry.mk (t1 - t0) t1) :: st.entries,
      st.rl_allowed + 1 + 1, st.rl_dropped⟩
    (RLEntry.mk (t1 - t0) t1) st.entries rfl rfl hw1.2
    (fun t' ht' => (hw t' (List.mem_cons_of_mem _ ht')).2)
  obtain ⟨hres, hal, hdr⟩ := hrej
  refine ⟨?_, ?_, ?_⟩
  · rw [rlRun_step1 _ _ _ _ _ _ _ _ h0, rlRun_step1 _ _ _ _ _ _ _ _ h1, hres]
    rfl
  · rw [rlRun_step2 _ _ _ _ _ _ _ _ h0, rlRun_step2 _ _ _ _ _ _ _ _ h1, hal]
  · rw [rlRun_step2 _ _ _ _ _ _ _ _ h0, rlRun_step2 _ _ _ _ _ _ _ _ h1, hdr]
    simp

/-- Witness for C2: ten SYNs at 10 ms spacing (all within 100 ms)
against a fresh table: the first two are admitted, the following
eight are dropped with reason SYN_FLOOD. -/
theorem C2_syn_flood_burst_witness :
    (rlRun (defaultRLConfig []) synPkt junk0
      [0, 1/100, 2/100, 3/100, 4/100, 5/100, 6/100, 7/100, 8/100, 9/100]
      ⟨[], 0, 0⟩).1
      = [.allowed, .allowed] ++ List.replicate 8 .droppedSynFlood :=
  (C2_syn_flood_burst [] junk0 ⟨[], 0, 0⟩
    0 (1/100) (2/100) (3/100) (4/100) (5/100) (6/100) (7/100) (8/100) (9/100)
    (by simp [rlFind]) (by simp)
    (by intro t ht; fin_cases ht <;> norm_num)).1

/-! ## C9 : the fragmentation-anomaly check -/

/-- A 34-byte capture of a LAST fragment (fragment offset 1, MF clear)
of an ICMP datagram 10.0.0.1 → 10.0.0.2, with a correct IP header
checksum, captured exactly through the IP header. -/
def fragLastPkt : List Nat :=
  [0, 0, 0, 0, 0, 0, 0, 0, 0, 0, 0, 0, 0x08, 0x00,
   0x45, 0x00, 0x00, 0x1C, 0x00, 0x00, 0x00, 0x01, 0x40, 0x01, 0x66, 0xDE,
   10, 0, 0, 1, 10, 0, 0, 2]

/-- The same capture as a MIDDLE fragment (fragment offset 1, MF set),
with its correct IP header checksum. -/
def fragMidPkt : List Nat :=
  [0, 0, 0, 0, 0, 0, 0, 0, 0, 0, 0, 0, 0x08, 0x00,
   0x45, 0x00, 0x00, 0x1C, 0x00, 0x00, 0x20, 0x01, 0x40, 0x01, 0x46, 0xDE,
   10, 0, 0, 1, 10, 0, 0, 2]

/-- C9 counterexample: `fragLastPkt` passes every earlier check and is
rejected with reason frag_anomaly, although (a) it is a LAST fragment
(nonzero offset, MF clear), not a "non-first, non-last" one, and
(b) its captured length does cover the full IP header (34 = 14 + 20
bytes).  Both sides of the claim's characterisation fail. -/
theorem C9_frag_counterexample :
    is_malformed fragLastPkt junk0 = some .frag_anomaly ∧
    word16 fragLastPkt junk0 20 &&& 0x1FFF ≠ 0 ∧
    word16 fragLastPkt junk0 20 &&& 0x2000 = 0 ∧
    14 + 20 ≤ fragLastPkt.length := by
  decide

/-- C9 (amended): for every IPv4 packet that passes the validator's
earlier checks (lengths, IHL, total length, IP checksum),
`is_malformed` rejects it with reason frag_anomaly if and only if the
packet is any IP fragment (nonzero fragment offset or MF flag set —
first, middle or last) and its captured length is exactly the
Ethernet header plus the IP header (the earlier truncated_total check
already guarantees at least that many bytes, so "no captured byte
past the IP header"). -/
theorem C9_frag_anomaly_characterisation (pkt : List Nat) (junk : Nat → Nat)
    (h14 : ¬ pkt.length < 14)
    (heth : word16 pkt junk 12 = 0x0800)
    (h34 : ¬ pkt.length < 14 + 20)
    (hihl : ¬ byteAt pkt junk 14 % 16 * 4 < 20)
    (htot : ¬ (word16 pkt junk 16 < byteAt pkt junk 14 % 16 * 4 ∨
               pkt.length - 14 < byteAt pkt junk 14 % 16 * 4))
    (hck : ip_checksum_ok pkt junk (byteAt pkt junk 14 % 16 * 4) = true) :
    is_malformed pkt junk = some .frag_anomaly ↔
      ¬ (word16 pkt junk 20 &&& 0x1FFF = 0 ∧ word16 pkt junk 20 &&& 0x2000 = 0) ∧
      pkt.length = 14 + byteAt pkt junk 14 % 16 * 4 := by
  have hge : 14 + byteAt pkt junk 14 % 16 * 4 ≤ pkt.length := by
    push_neg at htot h34
    omega
  unfold is_malformed
  rw [if_neg h14, if_neg (by simp [heth]), if_neg h34]
  dsimp only
  rw [if_neg hihl, if_neg htot, if_neg (by simp [hck])]
  constructor
  · intro h
    by_cases hf : fragmentation_anomaly pkt junk (byteAt pkt junk 14 % 16 * 4) = true
    · unfold fragmentation_anomaly at hf
      dsimp only at hf
      by_cases hmf : word16 pkt junk 20 &&& 0x1FFF = 0 ∧ word16 pkt junk 20 &&& 0x2000 = 0
      · rw [if_pos hmf] at hf
        cases hf
      · rw [if_neg hmf] at hf
        have hle := of_decide_eq_true hf
        exact ⟨hmf, by omega⟩
    · rw [if_neg hf] at h
      try dsimp only at h
      split_ifs at h <;> simp_all
  · intro ⟨hfrag, hlen⟩
    have hf : fragmentation_anomaly pkt junk (byteAt pkt junk 14 % 16 * 4) = true := by
      unfold fragmentation_anomaly
      dsimp only
      rw [if_neg hfrag]
      exact decide_eq_true (by omega)
    rw [if_pos hf]

/-- Witness for C9's characterisation at `fragMidPkt`: a middle
fragment captured exactly through its IP header, rejected with reason
frag_anomaly. -/
theorem C9_frag_anomaly_characterisation_witness :
    is_malformed fragMidPkt junk0 = some .frag_anomaly :=
  (C9_frag_anomaly_characterisation fragMidPkt junk0 (by decide) (by decide)
    (by decide) (by decide) (by decide) (by decide)).mpr ⟨by decide, by decide⟩
